import Mathlib

/-!
Verification development for the exam-question generation pipeline
(`generate_questions.py`).  The Python source is shallowly embedded:

* spreadsheet cells are modelled as `Option String` (`none` for an empty
  cell, `some s` for a cell whose Python `str(value)` is `s`);
* the two remote LLM services (content generation, quality assessment and
  fixing) are modelled as oracle functions supplied as parameters, exactly
  at the point where `generate_questions.py` performs the network call;
* logging and file writing are outside the model; instead the orchestrator
  returns, besides its result, the list of oracle calls it performed.
-/

/-! ## String helpers mirroring the Python primitives used by the source -/

/-- Python `str.strip()`: remove leading and trailing whitespace. -/
def pyStrip (s : String) : String :=
  String.mk (((s.data.dropWhile Char.isWhitespace).reverse.dropWhile
    Char.isWhitespace).reverse)

/-- `code.replace('—', '-').replace('－', '-')` from the source.  Both
patterns are single characters, so the two Python `replace` calls are a
per-character map. -/
def normalizeDashes (s : String) : String :=
  String.mk (s.data.map fun c =>
    if c = '—' then '-' else if c = '－' then '-' else c)

/-- Python `pat in s` (substring containment). -/
def strContains (s pat : String) : Bool :=
  decide (pat.data <:+: s.data)

/-- Python `s.isdigit()` restricted to ASCII digits (all codes and sequence
numbers in the documents are ASCII). -/
def pyIsdigit (s : String) : Bool :=
  !s.data.isEmpty && s.data.all Char.isDigit

/-- Python `' '.join(l)`. -/
def joinWithSpace : List String → String
  | [] => ""
  | [s] => s
  | s :: rest => s ++ " " ++ joinWithSpace rest

/-! ## Spreadsheet rows -/

/-- One cell of a row from `openpyxl` `iter_rows(values_only=True)`:
`none` is Python `None`, `some s` holds `str(value)`.  A cell is truthy in
the Python sense iff it is `some s` with `s ≠ ""` (numeric cells equal to
`0` are not used as codes/keys in these documents). -/
abbrev Cell := Option String

abbrev Row := List Cell

/-- `row[i]`; out-of-range indices behave like the `None` padding that
`openpyxl` applies to short rows. -/
def cellAt (row : Row) (i : Nat) : Cell :=
  (row.get? i).getD none

/-- Python truthiness of a cell. -/
def truthy (c : Cell) : Bool :=
  !((c.getD "") == "")

/-! ## Data model -/

/-- One knowledge point (鉴定点) as produced by `read_knowledge_points`:
`seq` = "序号", `code` = "编号", `title` = "名称", `body` = "内容". -/
structure KnowledgePoint where
  seq : String
  code : String
  title : String
  body : String
deriving DecidableEq

/-! ## FormatDetector (`detect_file_format`) -/

inductive FileFormat
  | format1
  | format2
  | format3
deriving DecidableEq

/-- `' '.join([str(cell) if cell else '' for cell in row])`. -/
def rowJoin (row : Row) : String :=
  joinWithSpace (row.map fun c => c.getD "")

/-- The header keywords `['题目序号', '鉴定点', '资料']` tested by
`detect_file_format`. -/
def detectHeaderKeyword (s : String) : Bool :=
  strContains s "题目序号" || strContains s "鉴定点" || strContains s "资料"

/-- `detect_file_format`, acting on the row list of the sheet.  The source
inspects the first three rows.  Its final check (`first_cell.isdigit()`)
returns `"format1"` when it fires and otherwise falls through to the
default `return "format1"`, so both outcomes are `format1` here. -/
def detect_file_format (allRows : List Row) : FileFormat :=
  let rows := allRows.take 3
  match rows.get? 0 with
  | none => FileFormat.format1
  | some row1 =>
    let row1Str := rowJoin row1
    if strContains row1Str "鉴定范围" && decide (row1.length > 5) &&
        strContains ((cellAt row1 5).getD "") "题目序号" then
      FileFormat.format3
    else if detectHeaderKeyword row1Str then
      FileFormat.format2
    else
      match rows.get? 1 with
      | none => FileFormat.format1
      | some row2 =>
        if detectHeaderKeyword (rowJoin row2) then FileFormat.format2
        else FileFormat.format1

/-! ## KnowledgePointReader (`read_knowledge_points`) -/

/-- The header keywords `['题目序号', '鉴定点', '序号']` used by the
format2/format3 row validation. -/
def rowHeaderKeyword (code : String) : Bool :=
  strContains code "题目序号" || strContains code "鉴定点" || strContains code "序号"

/-- The loop body of the format1 branch: column 1 = 序号, column 2 = 编号,
column 3 = 名称, column 4 = 内容; a row is skipped only when
`row[0] is None`. -/
def fmt1row (row : Row) : Option KnowledgePoint :=
  match cellAt row 0 with
  | none => none
  | some s0 =>
    let code := normalizeDashes ((cellAt row 1).getD "")
    some { seq := s0, code := code,
           title := (cellAt row 2).getD "",
           body := (cellAt row 3).getD "" }

/-- format1 branch of `read_knowledge_points`. -/
def read_format1 (rows : List Row) : List KnowledgePoint :=
  rows.filterMap fmt1row

/-- The loop body of the format2 branch: column 1 = 编号, column 2 = 名称,
column 3 = 内容; rows with a blank key column, a code shorter than 5
characters, or a code containing a header keyword are skipped. -/
def fmt2row (row : Row) : Option KnowledgePoint :=
  match cellAt row 0 with
  | none => none
  | some s0 =>
    if pyStrip s0 = "" then none
    else
      let code := normalizeDashes (pyStrip s0)
      if code = "" || decide (code.length < 5) then none
      else if rowHeaderKeyword code then none
      else
        some { seq := code, code := code,
               title := if decide (row.length > 1) && truthy (cellAt row 1)
                        then pyStrip ((cellAt row 1).getD "") else "",
               body := if decide (row.length > 2) && truthy (cellAt row 2)
                       then pyStrip ((cellAt row 2).getD "") else "" }

/-- format2 branch of `read_knowledge_points` (header row skipped,
`min_row=2`). -/
def read_format2 (rows : List Row) : List KnowledgePoint :=
  (rows.drop 1).filterMap fmt2row

/-- The loop body of the format3 branch: column 6 (index 5) = 编号,
column 7 (index 6) = 名称, column 9 (index 8) = 内容; besides the format2
checks, a code must contain a `'-'`. -/
def fmt3row (row : Row) : Option KnowledgePoint :=
  if decide (row.length ≤ 5) then none
  else
    match cellAt row 5 with
    | none => none
    | some s5 =>
      if pyStrip s5 = "" then none
      else
        let code := normalizeDashes (pyStrip s5)
        if code = "" || decide (code.length < 5) || !(code.data.contains '-') then
          none
        else if rowHeaderKeyword code then none
        else
          some { seq := code, code := code,
                 title := if decide (row.length > 6) && truthy (cellAt row 6)
                          then pyStrip ((cellAt row 6).getD "") else "",
                 body := if decide (row.length > 8) && truthy (cellAt row 8)
                         then pyStrip ((cellAt row 8).getD "") else "" }

/-- format3 branch of `read_knowledge_points` (header row skipped). -/
def read_format3 (rows : List Row) : List KnowledgePoint :=
  (rows.drop 1).filterMap fmt3row

/-- `read_knowledge_points`: detect the layout and dispatch. -/
def read_knowledge_points (rows : List Row) : List KnowledgePoint :=
  match detect_file_format rows with
  | FileFormat.format1 => read_format1 rows
  | FileFormat.format2 => read_format2 rows
  | FileFormat.format3 => read_format3 rows

/-! ## Questions, verdicts and the oracle interface -/

/-- One generated question.  `qtype` is the "题目类型" string
(`"单选"`, `"判断"` or `"多选"`), `stem` the "题干", `answer` the "答案"
and `code` the stamped "鉴定点编号". -/
structure Question where
  qtype : String
  stem : String
  answer : String
  code : String
deriving DecidableEq

/-- The parsed JSON verdict of `evaluate_questions`.  A field is `none`
when the key is absent from the oracle's JSON object. -/
structure Evaluation where
  passed : Option Bool        -- "是否通过"
  overall : Option String     -- "总体评价"
  problems : List String      -- "问题列表" (only its length is observed)
  suggestions : List String   -- "修改建议"
deriving DecidableEq

/-- The default verdict substituted by `evaluate_questions` when the
quality-assessment call raises:
`{"是否通过": True, "问题列表": [], "修改建议": []}` (no "总体评价" key). -/
def defaultEvaluation : Evaluation :=
  { passed := some true, overall := none, problems := [], suggestions := [] }

/-- The acceptance test of `generate_questions_for_point`:
`overall == "优秀" and is_passed` with
`overall = evaluation.get("总体评价", "未知")` and
`is_passed = evaluation.get("是否通过", False)`. -/
def acceptVerdict (e : Evaluation) : Bool :=
  (e.overall.getD "未知" == "优秀") && e.passed.getD false

/-- The two LLM services, abstracted at the network boundary and indexed
by the iteration number making the call.
`gen i = none` models an API/parse failure of the generation call,
`eval i qs = none` an exception of the assessment call, and
`fix i qs e = none` an exception of the fix call (the returned lists are
the parsed "题目列表" before the code is stamped). -/
structure Oracles where
  gen : Nat → Option (List Question)
  eval : Nat → List Question → Option Evaluation
  fix : Nat → List Question → Evaluation → Option (List Question)

/-- A record of one outbound LLM call, with the batch it was given. -/
inductive OracleCall
  | genCall (i : Nat)
  | evalCall (i : Nat) (qs : List Question)
  | fixCall (i : Nat) (qs : List Question)
deriving DecidableEq

def isGenCall : OracleCall → Bool
  | OracleCall.genCall _ => true
  | _ => false

def isEvalCall : OracleCall → Bool
  | OracleCall.evalCall _ _ => true
  | _ => false

/-- `q["鉴定点编号"] = knowledge_point["编号"]`. -/
def setCode (c : String) (q : Question) : Question :=
  { q with code := c }

/-- `generate_all_questions_at_once`, called at iteration `i`: an empty or
whitespace-only "内容" aborts before any LLM call; an API failure, or an
empty "题目列表", yields `none`; otherwise every question is stamped with
the knowledge point's code.  (`LEVEL_REQUIREMENTS[level]` only shapes the
prompt, which the oracle abstracts.) -/
def generate_all_questions_at_once (o : Oracles) (kp : KnowledgePoint)
    (i : Nat) : Option (List Question) × List OracleCall :=
  if pyStrip kp.body = "" then (none, [])
  else
    match o.gen i with
    | none => (none, [OracleCall.genCall i])
    | some questions =>
      if questions.isEmpty then (none, [OracleCall.genCall i])
      else (some (questions.map (setCode kp.code)), [OracleCall.genCall i])

/-- `evaluate_questions`, called at iteration `i`: on an oracle exception
the `defaultEvaluation` is substituted instead of propagating the error. -/
def evaluate_questions (o : Oracles) (i : Nat) (qs : List Question) :
    Evaluation × List OracleCall :=
  match o.eval i qs with
  | some e => (e, [OracleCall.evalCall i qs])
  | none => (defaultEvaluation, [OracleCall.evalCall i qs])

/-- `fix_questions`, called at iteration `i`: on success the parsed
"题目列表" is stamped with the knowledge point's code; on an exception
`none` is returned. -/
def fix_questions (o : Oracles) (kp : KnowledgePoint) (i : Nat)
    (qs : List Question) (e : Evaluation) :
    Option (List Question) × List OracleCall :=
  match o.fix i qs e with
  | some fixed => (some (fixed.map (setCode kp.code)), [OracleCall.fixCall i qs])
  | none => (none, [OracleCall.fixCall i qs])

/-- The verdict that `evaluate_questions` hands back to the loop at
iteration `i` (the oracle's verdict, or the substituted default). -/
def evalVerdict (o : Oracles) (i : Nat) (qs : List Question) : Evaluation :=
  (evaluate_questions o i qs).1

/-- The batch (or failure) that `fix_questions` hands back to the loop. -/
def fixResult (o : Oracles) (kp : KnowledgePoint) (i : Nat)
    (qs : List Question) (e : Evaluation) : Option (List Question) :=
  (fix_questions o kp i qs e).1

/-- `max_iterations = 5` of `generate_questions_for_point`. -/
def max_iterations : Nat := 5

/-- The observable outcome of one orchestration run: the returned batch,
the outbound LLM calls in order, the value of the `iteration` counter when
the function returned, whether it returned through the acceptance branch,
and the verdict of the returning round (if it evaluated one). -/
structure RunResult where
  questions : List Question
  calls : List OracleCall
  rounds : Nat
  accepted : Bool
  lastEval : Option Evaluation
deriving DecidableEq

/-- The `while iteration < max_iterations` loop of
`generate_questions_for_point`.  `iteration` is the counter before the
`iteration += 1` at the head of the body; the fuel `rem` stands for
`max_iterations - iteration` and drives the recursion.  Mirrored branches:

* generation failure (`if not questions: continue`);
* acceptance (`if overall == "优秀" and is_passed: return questions`);
* below the budget, the fix call: a falsy result (`None` or `[]`) logs
  "优化失败，重新生成" and `continue`s, a truthy result is assigned to
  `questions` — an assignment that is dead in the source, because the next
  pass of the loop rebinds `questions` from a fresh generation call;
* at the budget (`iteration == max_iterations`), the current batch is
  returned ("已达到最大迭代次数");
* loop exit falls through to `return []`. -/
def genLoop (o : Oracles) (kp : KnowledgePoint) : Nat → Nat → RunResult
  | iteration, 0 =>
    { questions := [], calls := [], rounds := iteration,
      accepted := false, lastEval := none }
  | iteration, rem + 1 =>
    let i := iteration + 1
    match generate_all_questions_at_once o kp i with
    | (none, ev1) =>
      let r := genLoop o kp i rem
      { r with calls := ev1 ++ r.calls }
    | (some questions, ev1) =>
      let (evaluation, ev2) := evaluate_questions o i questions
      if acceptVerdict evaluation then
        { questions := questions, calls := ev1 ++ ev2, rounds := i,
          accepted := true, lastEval := some evaluation }
      else if i < max_iterations then
        let (fq, ev3) := fix_questions o kp i questions evaluation
        match fq with
        | some fixed_questions =>
          if fixed_questions.isEmpty then
            let r := genLoop o kp i rem
            { r with calls := ev1 ++ ev2 ++ ev3 ++ r.calls }
          else
            let r := genLoop o kp i rem
            { r with calls := ev1 ++ ev2 ++ ev3 ++ r.calls }
        | none =>
          let r := genLoop o kp i rem
          { r with calls := ev1 ++ ev2 ++ ev3 ++ r.calls }
      else
        { questions := questions, calls := ev1 ++ ev2, rounds := i,
          accepted := false, lastEval := some evaluation }

/-- `generate_questions_for_point` (the level argument only selects the
per-kind counts put into the generation prompt, which the oracle
abstracts). -/
def generate_questions_for_point (o : Oracles) (kp : KnowledgePoint) :
    RunResult :=
  genLoop o kp 0 max_iterations

/-! ## Level requirement table -/

/-- Per-kind question counts: "单选" / "判断" / "多选". -/
structure Requirements where
  single : Nat
  judge : Nat
  multi : Nat
deriving DecidableEq

/-- `LEVEL_REQUIREMENTS`. -/
def LEVEL_REQUIREMENTS : String → Option Requirements
  | "一级" => some { single := 3, judge := 2, multi := 2 }
  | "二级" => some { single := 3, judge := 2, multi := 2 }
  | "三级" => some { single := 3, judge := 2, multi := 2 }
  | "四级" => some { single := 4, judge := 2, multi := 0 }
  | "五级" => some { single := 4, judge := 2, multi := 0 }
  | _ => none

/-- Number of questions of kind `t` ("单选"/"判断"/"多选") in a batch. -/
def countType (qs : List Question) (t : String) : Nat :=
  qs.countP fun q => q.qtype == t

/-! ## IncrementalTracker (`get_existing_question_codes`) and the
`process_file` filter -/

/-- `get_existing_question_codes`: keep the filenames that start with
"考题" and end with ".xls" and strip those affixes (`filename[2:-4]`;
"考题" is two characters and ".xls" four). -/
def get_existing_question_codes (files : List String) : List String :=
  files.filterMap fun filename =>
    let cs := filename.data
    if ("考题".data <+: cs) ∧ (".xls".data <:+ cs) then
      some (String.mk ((cs.drop 2).take (cs.length - 6)))
    else none

/-- The incremental filter of `process_file`:
`[kp for kp in knowledge_points if kp['编号'] not in existing_codes]`. -/
def new_knowledge_points (files : List String)
    (kps : List KnowledgePoint) : List KnowledgePoint :=
  let existing := get_existing_question_codes files
  kps.filter fun kp => !(existing.contains kp.code)

/-- All LLM calls of one `process_file` run over the filtered knowledge
points, in order. -/
def process_file_calls (o : Oracles) (files : List String)
    (kps : List KnowledgePoint) : List OracleCall :=
  ((new_knowledge_points files kps).map
    fun kp => (generate_questions_for_point o kp).calls).flatten

/-! ## Row codes for order-preservation statements -/

/-- The normalized code that the format1 branch extracts from a row. -/
def rowCode1 (row : Row) : String :=
  normalizeDashes ((cellAt row 1).getD "")

/-- The normalized code that the format2 branch extracts from a row. -/
def rowCode2 (row : Row) : String :=
  normalizeDashes (pyStrip ((cellAt row 0).getD ""))

/-- The normalized code that the format3 branch extracts from a row. -/
def rowCode3 (row : Row) : String :=
  normalizeDashes (pyStrip ((cellAt row 5).getD ""))

/-- The normalized code of every data row of the document, in row order,
under the detected layout. -/
def documentRowCodes (rows : List Row) : List String :=
  match detect_file_format rows with
  | FileFormat.format1 => rows.map rowCode1
  | FileFormat.format2 => (rows.drop 1).map rowCode2
  | FileFormat.format3 => (rows.drop 1).map rowCode3

/-! ## Concrete data used by the claim-level theorems -/

def qC1 : Question := { qtype := "单选", stem := "甲", answer := "A", code := "" }

def vC1 : Evaluation :=
  { passed := some true, overall := some "优秀", problems := [], suggestions := [] }

def oC1 : Oracles :=
  { gen := fun _ => some [qC1], eval := fun _ _ => some vC1, fix := fun _ _ _ => none }

def kpC1 : KnowledgePoint :=
  { seq := "1", code := "A-B-A-001", title := "名", body := "正文" }

def batchC2 : List Question :=
  [ { qtype := "单选", stem := "一", answer := "A", code := "" },
    { qtype := "单选", stem := "二", answer := "B", code := "" },
    { qtype := "单选", stem := "三", answer := "C", code := "" },
    { qtype := "判断", stem := "四", answer := "正确", code := "" },
    { qtype := "判断", stem := "五", answer := "错误", code := "" },
    { qtype := "多选", stem := "六", answer := "AB", code := "" },
    { qtype := "多选", stem := "七", answer := "CD", code := "" } ]

def oC2 : Oracles :=
  { gen := fun _ => some batchC2, eval := fun _ _ => some vC1, fix := fun _ _ _ => none }

def kpC2 : KnowledgePoint :=
  { seq := "2", code := "A-B-A-002", title := "名", body := "正文" }

def oC4 : Oracles :=
  { gen := fun _ => none, eval := fun _ _ => none, fix := fun _ _ _ => none }

def kpC4 : KnowledgePoint :=
  { seq := "4", code := "A-B-A-004", title := "名", body := "  " }

def qC5 : Question := { qtype := "单选", stem := "乙", answer := "B", code := "" }

def vC5 : Evaluation :=
  { passed := some false, overall := some "良好", problems := ["重复"],
    suggestions := ["改写"] }

def oC5 : Oracles :=
  { gen := fun _ => some [qC5], eval := fun _ _ => some vC5, fix := fun _ _ _ => none }

def kpC5 : KnowledgePoint :=
  { seq := "5", code := "A-B-A-005", title := "名", body := "正文" }

def qC6gen : Question := { qtype := "单选", stem := "生成", answer := "A", code := "" }

def qC6fix : Question := { qtype := "单选", stem := "修复", answer := "A", code := "" }

def vC6 : Evaluation :=
  { passed := some false, overall := some "良好", problems := ["答案不符"],
    suggestions := ["改写"] }

/-- Oracles for the C6 run: generation always succeeds, the evaluator
always answers "良好"/not passed, and the fix oracle always returns the
replacement batch `[qC6fix]`. -/
def oC6 : Oracles :=
  { gen := fun _ => some [qC6gen], eval := fun _ _ => some vC6,
    fix := fun _ _ _ => some [qC6fix] }

def kpC6 : KnowledgePoint :=
  { seq := "6", code := "A-B-A-006", title := "名", body := "正文" }

def oC7 : Oracles :=
  { gen := fun _ => some [qC1], eval := fun _ _ => none, fix := fun _ _ _ => none }

def oC10 : Oracles :=
  { gen := fun _ => some [qC1], eval := fun _ _ => some vC1, fix := fun _ _ _ => none }

def kpC10 : KnowledgePoint :=
  { seq := "10", code := "A-B-A-010", title := "名", body := "正文" }

def rowsC3 : List Row := [[some "1", none, some "名", some "内"]]

def rowsC3w : List Row :=
  [[some "题目序号", some "鉴定点名称", some "资料"],
   [some "A-B-A-001", some "名", some "内"]]

def pC3w : KnowledgePoint :=
  { seq := "A-B-A-001", code := "A-B-A-001", title := "名", body := "内" }

def rowsC9 : List Row :=
  [[some "1", some "A-B-A-001", some "名", some "内"],
   [some "2", some "A-B-A-002", some "名", some "内"]]

def filesC8 : List String := ["考题A-B-A-008.xls", "说明.docx"]

def kpsC8 : List KnowledgePoint :=
  [{ seq := "8", code := "A-B-A-008", title := "名", body := "内" }]

def oC8 : Oracles :=
  { gen := fun _ => some [qC1], eval := fun _ _ => some vC1, fix := fun _ _ _ => none }

/-! ## Loop lemmas -/

theorem genLoop_empty_body (o : Oracles) (kp : KnowledgePoint)
    (h : pyStrip kp.body = "") :
    ∀ rem iteration, genLoop o kp iteration rem =
      { questions := [], calls := [], rounds := iteration + rem,
        accepted := false, lastEval := none } := by
  intro rem
  induction rem with
  | zero => intro iteration; simp [genLoop]
  | succ n ih =>
    intro iteration
    rw [genLoop]
    simp [generate_all_questions_at_once, h, ih]
    omega

theorem acceptVerdict_default : acceptVerdict defaultEvaluation = false := by
  decide

theorem evaluate_questions_eq (o : Oracles) (i : Nat) (qs : List Question) :
    evaluate_questions o i qs =
      (evalVerdict o i qs, [OracleCall.evalCall i qs]) := by
  unfold evalVerdict evaluate_questions
  cases o.eval i qs <;> simp

theorem fix_questions_eq (o : Oracles) (kp : KnowledgePoint) (i : Nat)
    (qs : List Question) (e : Evaluation) :
    fix_questions o kp i qs e =
      (fixResult o kp i qs e, [OracleCall.fixCall i qs]) := by
  unfold fixResult fix_questions
  cases o.fix i qs e <;> simp

theorem genLoop_succ_genfail (o : Oracles) (kp : KnowledgePoint)
    (n iteration : Nat) (hb : ¬pyStrip kp.body = "")
    (hg : o.gen (iteration + 1) = none ∨ o.gen (iteration + 1) = some []) :
    genLoop o kp iteration (n + 1) =
      { genLoop o kp (iteration + 1) n with
        calls := OracleCall.genCall (iteration + 1) ::
          (genLoop o kp (iteration + 1) n).calls } := by
  rw [genLoop]
  rcases hg with hg | hg <;>
    simp [generate_all_questions_at_once, if_neg hb, hg]

theorem genLoop_succ_accept (o : Oracles) (kp : KnowledgePoint)
    (n iteration : Nat) (qs : List Question) (hb : ¬pyStrip kp.body = "")
    (hg : o.gen (iteration + 1) = some qs) (hqs : ¬qs = [])
    (hacc : acceptVerdict
      (evalVerdict o (iteration + 1) (qs.map (setCode kp.code))) = true) :
    genLoop o kp iteration (n + 1) =
      { questions := qs.map (setCode kp.code),
        calls := [OracleCall.genCall (iteration + 1),
          OracleCall.evalCall (iteration + 1) (qs.map (setCode kp.code))],
        rounds := iteration + 1, accepted := true,
        lastEval := some (evalVerdict o (iteration + 1)
          (qs.map (setCode kp.code))) } := by
  rw [genLoop]
  simp only [generate_all_questions_at_once, if_neg hb, hg,
    List.isEmpty_eq_true, if_neg hqs, evaluate_questions_eq, hacc, if_true]
  simp

theorem genLoop_succ_revise (o : Oracles) (kp : KnowledgePoint)
    (n iteration : Nat) (qs : List Question) (hb : ¬pyStrip kp.body = "")
    (hg : o.gen (iteration + 1) = some qs) (hqs : ¬qs = [])
    (hacc : acceptVerdict
      (evalVerdict o (iteration + 1) (qs.map (setCode kp.code))) = false)
    (hi : iteration + 1 < max_iterations) :
    genLoop o kp iteration (n + 1) =
      { genLoop o kp (iteration + 1) n with
        calls := OracleCall.genCall (iteration + 1) ::
          OracleCall.evalCall (iteration + 1) (qs.map (setCode kp.code)) ::
          OracleCall.fixCall (iteration + 1) (qs.map (setCode kp.code)) ::
          (genLoop o kp (iteration + 1) n).calls } := by
  rw [genLoop]
  simp only [generate_all_questions_at_once, if_neg hb, hg,
    List.isEmpty_eq_true, if_neg hqs, evaluate_questions_eq, hacc,
    Bool.false_eq_true, if_false, if_pos hi, fix_questions_eq]
  cases fixResult o kp (iteration + 1) (qs.map (setCode kp.code))
      (evalVerdict o (iteration + 1) (qs.map (setCode kp.code))) <;>
    simp [ite_self]

theorem genLoop_succ_exhaust (o : Oracles) (kp : KnowledgePoint)
    (n iteration : Nat) (qs : List Question) (hb : ¬pyStrip kp.body = "")
    (hg : o.gen (iteration + 1) = some qs) (hqs : ¬qs = [])
    (hacc : acceptVerdict
      (evalVerdict o (iteration + 1) (qs.map (setCode kp.code))) = false)
    (hi : ¬iteration + 1 < max_iterations) :
    genLoop o kp iteration (n + 1) =
      { questions := qs.map (setCode kp.code),
        calls := [OracleCall.genCall (iteration + 1),
          OracleCall.evalCall (iteration + 1) (qs.map (setCode kp.code))],
        rounds := iteration + 1, accepted := false,
        lastEval := some (evalVerdict o (iteration + 1)
          (qs.map (setCode kp.code))) } := by
  rw [genLoop]
  simp only [generate_all_questions_at_once, if_neg hb, hg,
    List.isEmpty_eq_true, if_neg hqs, evaluate_questions_eq, hacc,
    Bool.false_eq_true, if_false, if_neg hi]
  simp

theorem gen_some_nonempty_of_not_fail (o : Oracles) (i : Nat)
    (hgf : ¬(o.gen i = none ∨ o.gen i = some [])) :
    ∃ qs, o.gen i = some qs ∧ ¬qs = [] := by
  cases hgen : o.gen i with
  | none => exact absurd (Or.inl hgen) hgf
  | some qs =>
    refine ⟨qs, rfl, fun h => hgf (Or.inr ?_)⟩
    rw [← h]
    exact hgen

theorem eval_ok_of_accept (o : Oracles) (i : Nat) (qs : List Question)
    (h : acceptVerdict (evalVerdict o i qs) = true) :
    o.eval i qs = some (evalVerdict o i qs) := by
  unfold evalVerdict evaluate_questions at *
  cases he : o.eval i qs with
  | some e => simp [he]
  | none =>
    rw [he] at h
    simp [acceptVerdict_default] at h

theorem genLoop_early_accept (o : Oracles) (kp : KnowledgePoint) :
    ∀ rem iteration, iteration + rem = max_iterations →
      (genLoop o kp iteration rem).rounds < max_iterations →
      (genLoop o kp iteration rem).accepted = true := by
  intro rem
  induction rem with
  | zero =>
    intro iteration hinv hlt
    simp [genLoop] at hlt
    omega
  | succ n ih =>
    intro iteration hinv hlt
    by_cases hb : pyStrip kp.body = ""
    · rw [genLoop_empty_body o kp hb] at hlt
      simp at hlt
      omega
    · by_cases hgf : o.gen (iteration + 1) = none ∨ o.gen (iteration + 1) = some []
      · rw [genLoop_succ_genfail o kp n iteration hb hgf] at hlt ⊢
        exact ih (iteration + 1) (by omega) hlt
      · obtain ⟨qs, hg, hqs⟩ := gen_some_nonempty_of_not_fail o (iteration + 1) hgf
        cases hacc : acceptVerdict
            (evalVerdict o (iteration + 1) (qs.map (setCode kp.code))) with
        | true =>
          rw [genLoop_succ_accept o kp n iteration qs hb hg hqs hacc]
        | false =>
          by_cases hi : iteration + 1 < max_iterations
          · rw [genLoop_succ_revise o kp n iteration qs hb hg hqs hacc hi] at hlt ⊢
            exact ih (iteration + 1) (by omega) hlt
          · rw [genLoop_succ_exhaust o kp n iteration qs hb hg hqs hacc hi] at hlt
            simp at hlt
            omega

theorem genLoop_accepted (o : Oracles) (kp : KnowledgePoint) :
    ∀ rem iteration,
      (genLoop o kp iteration rem).accepted = true →
      ∃ qs e, o.gen (genLoop o kp iteration rem).rounds = some qs ∧ ¬qs = [] ∧
        (genLoop o kp iteration rem).questions = qs.map (setCode kp.code) ∧
        o.eval (genLoop o kp iteration rem).rounds (qs.map (setCode kp.code)) = some e ∧
        acceptVerdict e = true ∧
        (genLoop o kp iteration rem).lastEval = some e ∧
        OracleCall.evalCall (genLoop o kp iteration rem).rounds (qs.map (setCode kp.code)) ∈
          (genLoop o kp iteration rem).calls := by
  intro rem
  induction rem with
  | zero =>
    intro iteration hacc
    simp [genLoop] at hacc
  | succ n ih =>
    intro iteration hacc
    by_cases hb : pyStrip kp.body = ""
    · rw [genLoop_empty_body o kp hb] at hacc
      simp at hacc
    · by_cases hgf : o.gen (iteration + 1) = none ∨ o.gen (iteration + 1) = some []
      · rw [genLoop_succ_genfail o kp n iteration hb hgf] at hacc ⊢
        simp only [List.mem_cons] at *
        obtain ⟨qs, e, h1, h2, h3, h4, h5, h6, h7⟩ := ih (iteration + 1) hacc
        exact ⟨qs, e, h1, h2, h3, h4, h5, h6, Or.inr h7⟩
      · obtain ⟨qs, hg, hqs⟩ := gen_some_nonempty_of_not_fail o (iteration + 1) hgf
        cases haccv : acceptVerdict
            (evalVerdict o (iteration + 1) (qs.map (setCode kp.code))) with
        | true =>
          rw [genLoop_succ_accept o kp n iteration qs hb hg hqs haccv]
          exact ⟨qs, evalVerdict o (iteration + 1) (qs.map (setCode kp.code)),
            hg, hqs, rfl, eval_ok_of_accept o (iteration + 1) _ haccv, haccv,
            rfl, by simp⟩
        | false =>
          by_cases hi : iteration + 1 < max_iterations
          · rw [genLoop_succ_revise o kp n iteration qs hb hg hqs haccv hi] at hacc ⊢
            simp only [List.mem_cons] at *
            obtain ⟨qs2, e, h1, h2, h3, h4, h5, h6, h7⟩ := ih (iteration + 1) hacc
            exact ⟨qs2, e, h1, h2, h3, h4, h5, h6, Or.inr (Or.inr (Or.inr h7))⟩
          · rw [genLoop_succ_exhaust o kp n iteration qs hb hg hqs haccv hi] at hacc
            simp at hacc

theorem genLoop_questions_from_gen (o : Oracles) (kp : KnowledgePoint) :
    ∀ rem iteration,
      ¬(genLoop o kp iteration rem).questions = [] →
      ∃ qs, o.gen (genLoop o kp iteration rem).rounds = some qs ∧ ¬qs = [] ∧
        (genLoop o kp iteration rem).questions = qs.map (setCode kp.code) := by
  intro rem
  induction rem with
  | zero =>
    intro iteration hne
    simp [genLoop] at hne
  | succ n ih =>
    intro iteration hne
    by_cases hb : pyStrip kp.body = ""
    · rw [genLoop_empty_body o kp hb] at hne
      simp at hne
    · by_cases hgf : o.gen (iteration + 1) = none ∨ o.gen (iteration + 1) = some []
      · rw [genLoop_succ_genfail o kp n iteration hb hgf] at hne ⊢
        exact ih (iteration + 1) hne
      · obtain ⟨qs, hg, hqs⟩ := gen_some_nonempty_of_not_fail o (iteration + 1) hgf
        cases haccv : acceptVerdict
            (evalVerdict o (iteration + 1) (qs.map (setCode kp.code))) with
        | true =>
          rw [genLoop_succ_accept o kp n iteration qs hb hg hqs haccv]
          exact ⟨qs, hg, hqs, rfl⟩
        | false =>
          by_cases hi : iteration + 1 < max_iterations
          · rw [genLoop_succ_revise o kp n iteration qs hb hg hqs haccv hi] at hne ⊢
            exact ih (iteration + 1) hne
          · rw [genLoop_succ_exhaust o kp n iteration qs hb hg hqs haccv hi]
            exact ⟨qs, hg, hqs, rfl⟩

theorem acceptVerdict_evalVerdict_false (o : Oracles)
    (hev : ∀ i qs e, o.eval i qs = some e → acceptVerdict e = false)
    (i : Nat) (qs : List Question) :
    acceptVerdict (evalVerdict o i qs) = false := by
  unfold evalVerdict evaluate_questions
  cases he : o.eval i qs with
  | some e => simpa using hev i qs e he
  | none => simpa using acceptVerdict_default

theorem genLoop_exhaust (o : Oracles) (kp : KnowledgePoint)
    (hb : ¬pyStrip kp.body = "")
    (hgen : ∀ i, ¬(o.gen i = none ∨ o.gen i = some []))
    (hev : ∀ i qs e, o.eval i qs = some e → acceptVerdict e = false) :
    ∀ rem iteration, iteration + rem = max_iterations → 1 ≤ rem →
      (genLoop o kp iteration rem).rounds = max_iterations ∧
      (genLoop o kp iteration rem).accepted = false ∧
      (genLoop o kp iteration rem).calls.countP isGenCall = rem ∧
      (genLoop o kp iteration rem).calls.countP isEvalCall = rem ∧
      ∃ qs, o.gen max_iterations = some qs ∧ ¬qs = [] ∧
        (genLoop o kp iteration rem).questions = qs.map (setCode kp.code) := by
  intro rem
  induction rem with
  | zero =>
    intro iteration _ h1
    omega
  | succ n ih =>
    intro iteration hinv _
    obtain ⟨qs, hg, hqs⟩ :=
      gen_some_nonempty_of_not_fail o (iteration + 1) (hgen (iteration + 1))
    have haccv := acceptVerdict_evalVerdict_false o hev (iteration + 1)
      (qs.map (setCode kp.code))
    cases n with
    | zero =>
      have hi : ¬iteration + 1 < max_iterations := by omega
      rw [genLoop_succ_exhaust o kp 0 iteration qs hb hg hqs haccv hi]
      have h5 : iteration + 1 = max_iterations := by omega
      refine ⟨h5, rfl, by simp [List.countP_cons, isGenCall, isEvalCall], by
        simp [List.countP_cons, isGenCall, isEvalCall], qs, h5 ▸ hg, hqs, rfl⟩
    | succ m =>
      have hi : iteration + 1 < max_iterations := by omega
      rw [genLoop_succ_revise o kp (m + 1) iteration qs hb hg hqs haccv hi]
      obtain ⟨r1, r2, r3, r4, qs2, g1, g2, g3⟩ :=
        ih (iteration + 1) (by omega) (by omega)
      refine ⟨r1, r2, ?_, ?_, qs2, g1, g2, g3⟩
      · simp [List.countP_cons, isGenCall, isEvalCall, r3]
      · simp [List.countP_cons, isGenCall, isEvalCall, r4]

/-! ## Claim theorems: orchestrator -/

/-- C1: `generate_questions_for_point` returns before exhausting its
five-iteration budget only through the acceptance branch, and acceptance
happens only when the round's verdict has "总体评价" = "优秀" and
"是否通过" = true; a "良好" verdict, or any verdict with "是否通过"
false, never causes early acceptance and the loop revises instead. -/
theorem C1_early_return_only_excellent (o : Oracles) (kp : KnowledgePoint) :
    ((generate_questions_for_point o kp).rounds < max_iterations →
      (generate_questions_for_point o kp).accepted = true) ∧
    ((generate_questions_for_point o kp).accepted = true →
      ∃ e, (generate_questions_for_point o kp).lastEval = some e ∧
        e.overall.getD "未知" = "优秀" ∧ e.passed.getD false = true) := by
  constructor
  · exact genLoop_early_accept o kp max_iterations 0 rfl
  · intro hacc
    obtain ⟨qs, e, _, _, _, _, h5, h6, _⟩ :=
      genLoop_accepted o kp max_iterations 0 hacc
    refine ⟨e, h6, ?_⟩
    simpa [acceptVerdict] using h5

theorem C1_witness :
    ((generate_questions_for_point oC1 kpC1).rounds < max_iterations →
      (generate_questions_for_point oC1 kpC1).accepted = true) ∧
    (generate_questions_for_point oC1 kpC1).rounds < max_iterations ∧
    (generate_questions_for_point oC1 kpC1).accepted = true ∧
    ∃ e, (generate_questions_for_point oC1 kpC1).lastEval = some e ∧
      e.overall.getD "未知" = "优秀" ∧ e.passed.getD false = true :=
  ⟨(C1_early_return_only_excellent oC1 kpC1).1, by decide, by decide,
    (C1_early_return_only_excellent oC1 kpC1).2 (by decide)⟩

/-- C2: whenever the content oracle honors the per-kind counts of the
level's requirement table (三级 3/2/2, 四级 and 五级 4/2/0), every
non-empty batch returned by `generate_questions_for_point` has exactly
those per-kind counts, and its size is their sum. -/
theorem C2_batch_counts_match_requirements (o : Oracles)
    (kp : KnowledgePoint) (lvl : String) (req : Requirements)
    (hreq : LEVEL_REQUIREMENTS lvl = some req)
    (honors : ∀ i qs, o.gen i = some qs →
      countType qs "单选" = req.single ∧ countType qs "判断" = req.judge ∧
      countType qs "多选" = req.multi ∧
      qs.length = req.single + req.judge + req.multi)
    (hne : ¬(generate_questions_for_point o kp).questions = []) :
    countType (generate_questions_for_point o kp).questions "单选" = req.single ∧
    countType (generate_questions_for_point o kp).questions "判断" = req.judge ∧
    countType (generate_questions_for_point o kp).questions "多选" = req.multi ∧
    (generate_questions_for_point o kp).questions.length =
      req.single + req.judge + req.multi := by
  obtain ⟨qs, hg, _, heq⟩ := genLoop_questions_from_gen o kp max_iterations 0 hne
  obtain ⟨c1, c2, c3, c4⟩ := honors _ qs hg
  unfold generate_questions_for_point
  rw [heq]
  refine ⟨?_, ?_, ?_, by simpa using c4⟩ <;>
    simpa [countType, List.countP_map, Function.comp, setCode] using
      (by assumption : _)

theorem C2_witness :
    LEVEL_REQUIREMENTS "三级" = some { single := 3, judge := 2, multi := 2 } ∧
    ¬(generate_questions_for_point oC2 kpC2).questions = [] ∧
    countType (generate_questions_for_point oC2 kpC2).questions "单选" = 3 ∧
    countType (generate_questions_for_point oC2 kpC2).questions "判断" = 2 ∧
    countType (generate_questions_for_point oC2 kpC2).questions "多选" = 2 ∧
    (generate_questions_for_point oC2 kpC2).questions.length = 3 + 2 + 2 := by
  refine ⟨by decide, by decide, ?_⟩
  exact C2_batch_counts_match_requirements oC2 kpC2 "三级"
    { single := 3, judge := 2, multi := 2 } (by decide)
    (by intro i qs h; injection h with h2; subst h2; decide)
    (by decide)

/-- C4: for a knowledge point whose "内容" is empty or whitespace-only,
the orchestrator returns an empty batch and performs no oracle call at
all (the emptiness check precedes every LLM call). -/
theorem C4_empty_body_no_oracle_calls (o : Oracles) (kp : KnowledgePoint)
    (h : pyStrip kp.body = "") :
    (generate_questions_for_point o kp).questions = [] ∧
    (generate_questions_for_point o kp).calls = [] := by
  unfold generate_questions_for_point
  rw [genLoop_empty_body o kp h]
  exact ⟨rfl, rfl⟩

theorem C4_witness :
    pyStrip kpC4.body = "" ∧
    (generate_questions_for_point oC4 kpC4).questions = [] ∧
    (generate_questions_for_point oC4 kpC4).calls = [] :=
  ⟨by decide, C4_empty_body_no_oracle_calls oC4 kpC4 (by decide)⟩

/-- C5: when generation always succeeds and no verdict is ever
Excellent-and-passed (for example the evaluator always answers "良好"),
the orchestrator performs exactly five generation calls and five
evaluation calls, does not accept, and returns the batch generated in
iteration 5 (stamped with the knowledge point's code) instead of an empty
result. -/
theorem C5_exhaustion_returns_round5_batch (o : Oracles)
    (kp : KnowledgePoint) (hb : ¬pyStrip kp.body = "")
    (hgen : ∀ i, ¬(o.gen i = none ∨ o.gen i = some []))
    (hev : ∀ i qs e, o.eval i qs = some e → acceptVerdict e = false) :
    (generate_questions_for_point o kp).rounds = max_iterations ∧
    (generate_questions_for_point o kp).accepted = false ∧
    (generate_questions_for_point o kp).calls.countP isGenCall = max_iterations ∧
    (generate_questions_for_point o kp).calls.countP isEvalCall = max_iterations ∧
    ∃ qs, o.gen max_iterations = some qs ∧ ¬qs = [] ∧
      (generate_questions_for_point o kp).questions = qs.map (setCode kp.code) :=
  genLoop_exhaust o kp hb hgen hev max_iterations 0 rfl (by decide)

theorem C5_witness :
    (generate_questions_for_point oC5 kpC5).rounds = max_iterations ∧
    (generate_questions_for_point oC5 kpC5).accepted = false ∧
    (generate_questions_for_point oC5 kpC5).calls.countP isGenCall = max_iterations ∧
    (generate_questions_for_point oC5 kpC5).calls.countP isEvalCall = max_iterations ∧
    ∃ qs, oC5.gen max_iterations = some qs ∧ ¬qs = [] ∧
      (generate_questions_for_point oC5 kpC5).questions = qs.map (setCode kpC5.code) :=
  C5_exhaustion_returns_round5_batch oC5 kpC5 (by decide)
    (by intro i; simp [oC5])
    (by intro i qs e h; injection h with h2; subst h2; decide)

/-- C7: when the quality-assessment call raises, `evaluate_questions`
substitutes the default verdict — "是否通过" true, no "总体评价" key,
empty "问题列表" and "修改建议" — instead of propagating the error. -/
theorem C7_eval_error_substitutes_default (o : Oracles) (i : Nat)
    (qs : List Question) (h : o.eval i qs = none) :
    (evaluate_questions o i qs).1 = defaultEvaluation ∧
    defaultEvaluation.passed = some true ∧
    defaultEvaluation.overall = none ∧
    defaultEvaluation.problems = [] ∧
    defaultEvaluation.suggestions = [] := by
  unfold evaluate_questions
  rw [h]
  exact ⟨rfl, rfl, rfl, rfl, rfl⟩

theorem C7_witness :
    (evaluate_questions oC7 1 [qC1]).1 = defaultEvaluation ∧
    defaultEvaluation.passed = some true ∧
    defaultEvaluation.overall = none ∧
    defaultEvaluation.problems = [] ∧
    defaultEvaluation.suggestions = [] :=
  C7_eval_error_substitutes_default oC7 1 [qC1] (by decide)

/-- C10: the substituted default verdict never satisfies the acceptance
test (its missing "总体评价" reads as "未知", not "优秀", even though
"是否通过" is true); consequently whenever the orchestrator accepts, the
quality oracle call of the accepting round returned an actual verdict
(it did not raise) and that verdict satisfies the acceptance test. -/
theorem C10_error_round_never_accepts (o : Oracles) (kp : KnowledgePoint)
    (hacc : (generate_questions_for_point o kp).accepted = true) :
    acceptVerdict defaultEvaluation = false ∧
    ∃ qs e, OracleCall.evalCall (generate_questions_for_point o kp).rounds qs ∈
        (generate_questions_for_point o kp).calls ∧
      o.eval (generate_questions_for_point o kp).rounds qs = some e ∧
      acceptVerdict e = true := by
  obtain ⟨qs, e, _, _, _, h4, h5, _, h7⟩ :=
    genLoop_accepted o kp max_iterations 0 hacc
  exact ⟨acceptVerdict_default, qs.map (setCode kp.code), e, h7, h4, h5⟩

theorem C10_witness :
    (generate_questions_for_point oC10 kpC10).accepted = true ∧
    acceptVerdict defaultEvaluation = false ∧
    ∃ qs e, OracleCall.evalCall (generate_questions_for_point oC10 kpC10).rounds qs ∈
        (generate_questions_for_point oC10 kpC10).calls ∧
      oC10.eval (generate_questions_for_point oC10 kpC10).rounds qs = some e ∧
      acceptVerdict e = true :=
  ⟨by decide, C10_error_round_never_accepts oC10 kpC10 (by decide)⟩

/-- C6 (code bug): in the oC6 run the fix oracle is called and returns
the replacement batch `[qC6fix]`, yet every evaluation call of every
round receives the freshly regenerated batch `[setCode kpC6.code qC6gen]`
— the fixed batch is overwritten by the generation call at the head of
the next loop pass and is never re-evaluated, and the regeneration after
a fix consumes the next iteration of the five-round budget (five
generation calls are made). -/
theorem C6_fixed_batch_never_reevaluated :
    oC6.fix 1 [setCode kpC6.code qC6gen] vC6 = some [qC6fix] ∧
    ¬[setCode kpC6.code qC6fix] = [setCode kpC6.code qC6gen] ∧
    (generate_questions_for_point oC6 kpC6).calls =
      [OracleCall.genCall 1, OracleCall.evalCall 1 [setCode kpC6.code qC6gen],
       OracleCall.fixCall 1 [setCode kpC6.code qC6gen],
       OracleCall.genCall 2, OracleCall.evalCall 2 [setCode kpC6.code qC6gen],
       OracleCall.fixCall 2 [setCode kpC6.code qC6gen],
       OracleCall.genCall 3, OracleCall.evalCall 3 [setCode kpC6.code qC6gen],
       OracleCall.fixCall 3 [setCode kpC6.code qC6gen],
       OracleCall.genCall 4, OracleCall.evalCall 4 [setCode kpC6.code qC6gen],
       OracleCall.fixCall 4 [setCode kpC6.code qC6gen],
       OracleCall.genCall 5, OracleCall.evalCall 5 [setCode kpC6.code qC6gen]] ∧
    (generate_questions_for_point oC6 kpC6).questions =
      [setCode kpC6.code qC6gen] := by
  decide

/-! ## Reader lemmas -/

theorem normalizeDashes_no_fullwidth (s : String) :
    ∀ c ∈ (normalizeDashes s).data, ¬c = '—' ∧ ¬c = '－' := by
  intro c hc
  unfold normalizeDashes at hc
  simp only [List.mem_map] at hc
  obtain ⟨a, _, ha⟩ := hc
  subst ha
  by_cases h1 : a = '—'
  · simp only [h1, if_pos rfl]
    exact ⟨by decide, by decide⟩
  · by_cases h2 : a = '－'
    · simp only [if_neg h1, h2, if_pos rfl]
      exact ⟨by decide, by decide⟩
    · simp only [if_neg h1, if_neg h2]
      exact ⟨h1, h2⟩

theorem fmt1row_some (row : Row) (p : KnowledgePoint)
    (h : fmt1row row = some p) : p.code = rowCode1 row := by
  unfold fmt1row at h
  cases h0 : cellAt row 0 with
  | none => rw [h0] at h; exact absurd h (by simp)
  | some s0 =>
    rw [h0] at h
    cases Option.some.inj h
    unfold rowCode1
    rfl

theorem fmt2row_some (row : Row) (p : KnowledgePoint)
    (h : fmt2row row = some p) :
    p.code = rowCode2 row ∧ ¬p.code = "" ∧ 5 ≤ p.code.length ∧
      rowHeaderKeyword p.code = false := by
  unfold fmt2row at h
  cases h0 : cellAt row 0 with
  | none => rw [h0] at h; exact absurd h (by simp)
  | some s0 =>
    rw [h0] at h
    dsimp only at h
    by_cases hs : pyStrip s0 = ""
    · rw [if_pos hs] at h; exact absurd h (by simp)
    · rw [if_neg hs] at h
      split at h
      · exact absurd h (by simp)
      · split at h
        · exact absurd h (by simp)
        · rename_i hc1 hc2
          cases Option.some.inj h
          rw [Bool.not_eq_true] at hc2
          simp only [Bool.or_eq_true, decide_eq_true_eq, not_or] at hc1
          dsimp only
          refine ⟨by unfold rowCode2; rw [h0]; rfl, hc1.1, by
            have := hc1.2; omega, hc2⟩

theorem fmt3row_some (row : Row) (p : KnowledgePoint)
    (h : fmt3row row = some p) :
    p.code = rowCode3 row ∧ ¬p.code = "" ∧ 5 ≤ p.code.length ∧
      rowHeaderKeyword p.code = false := by
  unfold fmt3row at h
  by_cases hl : decide (row.length ≤ 5) = true
  · rw [if_pos hl] at h; exact absurd h (by simp)
  · rw [if_neg hl] at h
    cases h0 : cellAt row 5 with
    | none => rw [h0] at h; exact absurd h (by simp)
    | some s5 =>
      rw [h0] at h
      dsimp only at h
      by_cases hs : pyStrip s5 = ""
      · rw [if_pos hs] at h; exact absurd h (by simp)
      · rw [if_neg hs] at h
        split at h
        · exact absurd h (by simp)
        · split at h
          · exact absurd h (by simp)
          · rename_i hc1 hc2
            cases Option.some.inj h
            rw [Bool.not_eq_true] at hc2
            simp only [Bool.or_eq_true, Bool.not_eq_true',
              decide_eq_true_eq, not_or] at hc1
            dsimp only
            refine ⟨by unfold rowCode3; rw [h0]; rfl, hc1.1.1, by
              have := hc1.1.2; omega, hc2⟩

theorem filterMap_codes_sublist (f : Row → Option KnowledgePoint)
    (g : Row → String) (H : ∀ row p, f row = some p → p.code = g row) :
    ∀ l : List Row,
      ((l.filterMap f).map KnowledgePoint.code).Sublist (l.map g) := by
  intro l
  induction l with
  | nil => simp
  | cons row t ih =>
    rw [List.filterMap_cons]
    cases hf : f row with
    | none =>
      simpa using ih.cons (g row)
    | some p =>
      simp only [List.map_cons]
      rw [← H row p hf]
      exact ih.cons₂ p.code

theorem code_is_normalized (rows : List Row) (p : KnowledgePoint)
    (hp : p ∈ read_knowledge_points rows) :
    ∃ s, p.code = normalizeDashes s := by
  unfold read_knowledge_points at hp
  cases hdet : detect_file_format rows <;> rw [hdet] at hp
  · unfold read_format1 at hp
    obtain ⟨row, _, hrow⟩ := List.mem_filterMap.mp hp
    exact ⟨(cellAt row 1).getD "", fmt1row_some row p hrow⟩
  · unfold read_format2 at hp
    obtain ⟨row, _, hrow⟩ := List.mem_filterMap.mp hp
    exact ⟨pyStrip ((cellAt row 0).getD ""), (fmt2row_some row p hrow).1⟩
  · unfold read_format3 at hp
    obtain ⟨row, _, hrow⟩ := List.mem_filterMap.mp hp
    exact ⟨pyStrip ((cellAt row 5).getD ""), (fmt3row_some row p hrow).1⟩

/-! ## Claim theorems: reader -/

/-- C3 counterexample: a format1 document whose single data row has a
numeric first cell and an empty code cell is classified as format1, and
`read_knowledge_points` emits a knowledge point whose code is the empty
string — contradicting "rows whose extracted code is shorter than 5
characters are skipped" and "no emitted KnowledgePoint has an empty
code" for the format1 layout. -/
theorem C3_counterexample :
    detect_file_format rowsC3 = FileFormat.format1 ∧
    (read_knowledge_points rowsC3).map KnowledgePoint.code = [""] := by
  decide

/-- C3 (amended): every layout replaces both full-width dash variants in
the emitted code, but the trimming, minimum-length and header-keyword
validation is applied only by the format2 and format3 branches, whose
knowledge points always carry a non-empty code of at least five
characters containing no header keyword; the format1 branch skips only
rows whose first cell is `None` and can emit empty codes. -/
theorem C3_normalization_validation_amended (rows : List Row)
    (p : KnowledgePoint) :
    (p ∈ read_knowledge_points rows →
      ∀ c ∈ p.code.data, ¬c = '—' ∧ ¬c = '－') ∧
    (p ∈ read_format2 rows ∨ p ∈ read_format3 rows →
      ¬p.code = "" ∧ 5 ≤ p.code.length ∧
        rowHeaderKeyword p.code = false) := by
  constructor
  · intro hp
    obtain ⟨s, hs⟩ := code_is_normalized rows p hp
    rw [hs]
    exact normalizeDashes_no_fullwidth s
  · rintro (hp | hp)
    · obtain ⟨row, _, hrow⟩ := List.mem_filterMap.mp hp
      exact (fmt2row_some row p hrow).2
    · obtain ⟨row, _, hrow⟩ := List.mem_filterMap.mp hp
      exact (fmt3row_some row p hrow).2

theorem C3_amended_witness :
    pC3w ∈ read_format2 rowsC3w ∧
    (¬pC3w.code = "" ∧ 5 ≤ pC3w.code.length ∧
      rowHeaderKeyword pC3w.code = false) ∧
    (∀ c ∈ pC3w.code.data, ¬c = '—' ∧ ¬c = '－') :=
  ⟨by decide,
   (C3_normalization_validation_amended rowsC3w pC3w).2 (Or.inl (by decide)),
   (C3_normalization_validation_amended rowsC3w pC3w).1 (by decide)⟩

/-- C9: under the detected layout, the codes emitted by
`read_knowledge_points` are a sublist of the normalized codes of the
document's data rows in row order (order preservation), and if those
per-row codes are pairwise distinct (a well-formed document) the emitted
codes contain no duplicates. -/
theorem C9_codes_order_preserving_nodup (rows : List Row) :
    ((read_knowledge_points rows).map KnowledgePoint.code).Sublist
      (documentRowCodes rows) ∧
    ((documentRowCodes rows).Nodup →
      ((read_knowledge_points rows).map KnowledgePoint.code).Nodup) := by
  have hsub : ((read_knowledge_points rows).map KnowledgePoint.code).Sublist
      (documentRowCodes rows) := by
    unfold read_knowledge_points documentRowCodes
    cases hdet : detect_file_format rows
    · exact filterMap_codes_sublist fmt1row rowCode1 fmt1row_some rows
    · exact filterMap_codes_sublist fmt2row rowCode2
        (fun r p h => (fmt2row_some r p h).1) (rows.drop 1)
    · exact filterMap_codes_sublist fmt3row rowCode3
        (fun r p h => (fmt3row_some r p h).1) (rows.drop 1)
  exact ⟨hsub, fun hnd => hnd.sublist hsub⟩

theorem C9_witness :
    (documentRowCodes rowsC9).Nodup ∧
    ((read_knowledge_points rowsC9).map KnowledgePoint.code).Sublist
      (documentRowCodes rowsC9) ∧
    ((read_knowledge_points rowsC9).map KnowledgePoint.code).Nodup :=
  ⟨by decide, (C9_codes_order_preserving_nodup rowsC9).1,
   (C9_codes_order_preserving_nodup rowsC9).2 (by decide)⟩

/-! ## Tracker lemmas -/

theorem string_data_append (a b : String) :
    (a ++ b).data = a.data ++ b.data := by
  cases a
  cases b
  rfl

theorem string_mk_data (s : String) : String.mk s.data = s := by
  cases s
  rfl

theorem slice_recovers_code (c : List Char) :
    (("考题".data ++ c ++ ".xls".data).drop 2).take
      (("考题".data ++ c ++ ".xls".data).length - 6) = c := by
  have hklen : ("考题".data).length = 2 := rfl
  have hxlen : (".xls".data).length = 4 := rfl
  have e1 : ("考题".data ++ c ++ ".xls".data).drop 2 = c ++ ".xls".data := by
    rw [List.append_assoc, ← hklen, List.drop_left]
  have e2 : ("考题".data ++ c ++ ".xls".data).length - 6 = c.length := by
    simp only [List.length_append, hklen, hxlen]
    omega
  rw [e1, e2, ← List.take_left c ".xls".data]
  simp

theorem suffix_of_append {α : Type} (l a b : List α) (h : l <:+ a ++ b)
    (hlen : l.length ≤ b.length) : l <:+ b := by
  obtain ⟨s, hs⟩ := h
  have hslen : a.length ≤ s.length := by
    have hl := congrArg List.length hs
    simp only [List.length_append] at hl
    omega
  have hta : s.take a.length = a := by
    have ht := congrArg (List.take a.length) hs
    rw [List.take_append_of_le_length hslen, List.take_left] at ht
    exact ht
  refine ⟨s.drop a.length, ?_⟩
  have hsplit : s = a ++ s.drop a.length := by
    conv_lhs => rw [← List.take_append_drop a.length s]
    rw [hta]
  rw [hsplit, List.append_assoc] at hs
  exact List.append_cancel_left hs

theorem kaoti_decompose (cs : List Char)
    (hp : "考题".data <+: cs) (hs : ".xls".data <:+ cs) :
    ∃ c, cs = "考题".data ++ c ++ ".xls".data := by
  obtain ⟨t, ht⟩ := hp
  by_cases h4 : 4 ≤ t.length
  · have hsuf : ".xls".data <:+ t := by
      refine suffix_of_append _ ("考题".data) t ?_ ?_
      · rw [ht]; exact hs
      · simpa using h4
    obtain ⟨m, hm⟩ := hsuf
    refine ⟨m, ?_⟩
    rw [← ht, ← hm, List.append_assoc]
  · exfalso
    obtain ⟨s, hs2⟩ := hs
    rw [← ht] at hs2
    have hlen := congrArg List.length hs2
    simp only [List.length_append] at hlen
    have hklen : ("考题".data).length = 2 := rfl
    have hxlen : (".xls".data).length = 4 := rfl
    rw [hklen, hxlen] at hlen
    cases s with
    | nil =>
      rw [List.nil_append] at hs2
      injection hs2 with h1 _
      exact absurd h1 (by decide)
    | cons x s1 =>
      cases s1 with
      | nil =>
        rw [List.cons_append, List.nil_append] at hs2
        injection hs2 with _ h2
        injection h2 with h3 _
        exact absurd h3 (by decide)
      | cons y s2 =>
        simp only [List.length_cons] at hlen
        omega

/-! ## Claim theorems: tracker and incremental skip -/

/-- C8: `get_existing_question_codes` returns exactly the codes `c` such
that a file named `考题<c>.xls` is present in the output directory
(recovering `c` by stripping the two-character prefix and the
four-character suffix), and when every knowledge point's code already has
such a file the `process_file` filter keeps no knowledge point, so a
second run performs zero oracle calls. -/
theorem C8_tracker_roundtrip_and_skip (files : List String)
    (kps : List KnowledgePoint) (o : Oracles) (c : String) :
    (c ∈ get_existing_question_codes files ↔
      ("考题" ++ c ++ ".xls") ∈ files) ∧
    ((∀ kp ∈ kps, ("考题" ++ kp.code ++ ".xls") ∈ files) →
      new_knowledge_points files kps = [] ∧
      process_file_calls o files kps = []) := by
  have hdata : ∀ c : String, ("考题" ++ c ++ ".xls").data =
      "考题".data ++ c.data ++ ".xls".data := by
    intro c
    rw [string_data_append, string_data_append]
  have key : ∀ c : String,
      c ∈ get_existing_question_codes files ↔
        ("考题" ++ c ++ ".xls") ∈ files := by
    intro c
    constructor
    · intro hc
      obtain ⟨f, hf, heq⟩ := List.mem_filterMap.mp hc
      dsimp only [get_existing_question_codes] at heq
      split at heq
      · rename_i hcond
        obtain ⟨mid, hmid⟩ := kaoti_decompose f.data hcond.1 hcond.2
        have hc2 : String.mk mid = c := by
          have := Option.some.inj heq
          rw [hmid, slice_recovers_code] at this
          exact this
        have hfe : ("考题" ++ c ++ ".xls") = f := by
          have : ("考题" ++ c ++ ".xls").data = f.data := by
            rw [hdata, hmid, ← hc2]
          calc ("考题" ++ c ++ ".xls")
              = String.mk ("考题" ++ c ++ ".xls").data :=
                (string_mk_data _).symm
            _ = String.mk f.data := by rw [this]
            _ = f := string_mk_data f
        rw [hfe]
        exact hf
      · exact absurd heq (by simp)
    · intro hf
      refine List.mem_filterMap.mpr ⟨"考题" ++ c ++ ".xls", hf, ?_⟩
      dsimp only [get_existing_question_codes]
      rw [if_pos ?_]
      · rw [hdata, slice_recovers_code, string_mk_data]
      · constructor
        · rw [hdata, List.append_assoc]
          exact List.prefix_append _ _
        · rw [hdata]
          exact List.suffix_append _ _
  refine ⟨key c, ?_⟩
  intro hall
  have hfil : new_knowledge_points files kps = [] := by
    unfold new_knowledge_points
    rw [List.filter_eq_nil_iff]
    intro kp hkp
    have hm : kp.code ∈ get_existing_question_codes files :=
      (key kp.code).mpr (hall kp hkp)
    simp [hm]
  refine ⟨hfil, ?_⟩
  unfold process_file_calls
  rw [hfil]
  rfl

theorem C8_witness :
    ("A-B-A-008" ∈ get_existing_question_codes filesC8 ↔
      ("考题" ++ "A-B-A-008" ++ ".xls") ∈ filesC8) ∧
    (∀ kp ∈ kpsC8, ("考题" ++ kp.code ++ ".xls") ∈ filesC8) ∧
    new_knowledge_points filesC8 kpsC8 = [] ∧
    process_file_calls oC8 filesC8 kpsC8 = [] :=
  ⟨(C8_tracker_roundtrip_and_skip filesC8 kpsC8 oC8 "A-B-A-008").1,
   by decide,
   (C8_tracker_roundtrip_and_skip filesC8 kpsC8 oC8 "A-B-A-008").2 (by decide)⟩
